import Mathlib

/-!
Shallow embedding of the admin-console frontend (src/frontend/app.js) of the
pybackapi repository: the state-synchronization and pagination layer.
Network requests, status-line writes and fire-and-forget sub-controller calls
are reified as an explicit effect trace; each event handler or controller
function becomes a pure function from the application state plus the response
the server would deliver to the updated state plus the emitted trace.
-/

namespace AdminConsole

/-- Truthiness of an optional string the way JavaScript tests it:
null and undefined map to none, the empty string is also falsy. -/
def strTruthy : Option String → Bool
  | none => false
  | some s => !s.isEmpty

@[simp] lemma strTruthy_none : strTruthy none = false := rfl

@[simp] lemma strTruthy_some (s : String) : strTruthy (some s) = !s.isEmpty := rfl

/-- Message thrown by requireToken in app.js when no token is held. -/
def requireTokenMessage : String := "Please login first to obtain an access token."

/-- Broker credential status payload, fields of the JSON fact the code reads
(configured, api_key_last4, access_token_last4, valid_till). -/
structure KiteStatusPayload where
  configured : Bool
  api_key_last4 : Option String
  access_token_last4 : Option String
  valid_till : Option String
  deriving DecidableEq, Repr

/-- Embedding of describeKiteStatus (app.js lines 82-97). The locale
rendering of the expiry instant (new Date(v).toLocaleString()) is abstracted
as the function argument fmtDate. -/
def describeKiteStatus (fmtDate : String → String) : Option KiteStatusPayload → String
  | none => "No Kite credentials stored."
  | some p =>
    if !p.configured then
      "No Kite credentials stored."
    else
      let parts := #["Kite credentials active"]
      let parts := if strTruthy p.api_key_last4 then
          parts.push ("API key •••" ++ p.api_key_last4.getD "") else parts
      let parts := if strTruthy p.access_token_last4 then
          parts.push ("Token •••" ++ p.access_token_last4.getD "") else parts
      let parts := if strTruthy p.valid_till then
          parts.push ("valid till " ++ fmtDate (p.valid_till.getD "")) else parts
      String.intercalate " · " parts.toList

/-- Modelled from the amended specification wording: if the fact is absent or
not configured, the fixed string; otherwise the active-credentials head
followed by the optional masked key fragment, masked token fragment and
expiry fragment, each listed only if present (a usable, non-empty value),
joined with the separator. Written from the spec sentence, to be compared
with the source-derived describeKiteStatus. -/
def specKiteDescription (fmtDate : String → String) (fact : Option KiteStatusPayload) : String :=
  match fact with
  | none => "No Kite credentials stored."
  | some p =>
    if p.configured then
      String.intercalate " · "
        ("Kite credentials active" ::
          ((match p.api_key_last4 with
            | some k => if k.isEmpty then [] else ["API key •••" ++ k]
            | none => []) ++
           (match p.access_token_last4 with
            | some t => if t.isEmpty then [] else ["Token •••" ++ t]
            | none => []) ++
           (match p.valid_till with
            | some v => if v.isEmpty then [] else ["valid till " ++ fmtDate v]
            | none => [])))
    else
      "No Kite credentials stored."

/-- Result of one network round trip: ok carries the parsed JSON payload, err
carries the user-visible message (the response detail field or the handler
fallback, or the transport error message). -/
inductive ApiResult (α : Type) where
  | ok (value : α)
  | err (message : String)
  deriving DecidableEq, Repr

/-- Instrument row fields rendered by renderInstruments. -/
structure Instrument where
  id : String
  instrument_token : String
  tradingsymbol : String
  name : Option String
  exchange : String
  segment : String
  instrument_type : String
  lot_size : String
  tick_size : String
  last_price : Option String
  deriving DecidableEq, Repr

/-- Watchlist summary row as delivered by the list endpoint. -/
structure Watchlist where
  id : String
  name : String
  deriving DecidableEq, Repr

/-- Paginated search response payload fields the code reads. -/
structure SearchPage where
  items : List Instrument
  next_cursor : Option String
  total : Option Nat
  deriving DecidableEq, Repr

/-- Generic success payload carrying only an optional detail message. -/
structure DetailPayload where
  detail : Option String
  deriving DecidableEq, Repr

/-- Payload of the delete-all instruments endpoint. -/
structure DeletePayload where
  deleted : Option Nat
  deriving DecidableEq, Repr

/-- Credential form fields posted by the kite save handler. -/
structure KiteCredentialForm where
  api_key : String
  access_token : String
  valid_till : Option String
  deriving DecidableEq, Repr

/-- Observable actions emitted by a handler, in program order: network fetches,
status-line writes, console diagnostics, confirmation prompts, and
fire-and-forget or awaited calls into the other controllers. -/
inductive Effect where
  | fetch (url : String) (method : String)
  | status (surface : String) (message : String) (tone : String)
  | consoleError (message : String)
  | confirmPrompt (message : String)
  | spawnLoadDashboard (showToast : Bool)
  | spawnExecuteSearch
  | spawnRefreshImports
  | spawnLoadWatchlists (preserveSelection : Bool)
  | spawnRefreshKiteStatus (showMessage : Bool)
  | spawnLoadUsers
  | spawnFetchWatchlistItems (watchlistId : Option String) (silent : Bool)
  deriving DecidableEq, Repr

/-- The mutable module state of app.js together with the rendered search table
(resultsRows mirrors the result tbody rows), the load-more control flag, the
watchlist items table and its meta line. -/
structure AppState where
  token : Option String
  nextCursor : Option String
  lastSearchParams : List (String × String)
  resultsRows : List Instrument
  loadMoreDisabled : Bool
  watchlists : List Watchlist
  selectedWatchlistId : Option String
  watchlistRows : List String
  watchlistMeta : String
  kiteStatus : Option KiteStatusPayload
  activePanel : String
  deriving DecidableEq, Repr

/-- Initial module state (app.js lines 1-11); the load-more control starts
disabled and both tables start empty. -/
def initState : AppState :=
  { token := none
    nextCursor := none
    lastSearchParams := []
    resultsRows := []
    loadMoreDisabled := true
    watchlists := []
    selectedWatchlistId := none
    watchlistRows := []
    watchlistMeta := ""
    kiteStatus := none
    activePanel := "overview" }

/-- Embedding of setActivePanel (app.js lines 99-135): a falsy panel id is
ignored; otherwise the visual toggle is recorded in activePanel; with no
token held the lazy-load policy is skipped entirely; otherwise the panel
specific loads are spawned. -/
def setActivePanel (s : AppState) (panelId : String) : AppState × List Effect :=
  if panelId.isEmpty then
    (s, [])
  else
    let s' := { s with activePanel := panelId }
    if !strTruthy s'.token then
      (s', [])
    else
      match panelId with
      | "overview" => (s', [.spawnLoadDashboard false])
      | "instruments" =>
        (s', (if s'.resultsRows.isEmpty then [Effect.spawnExecuteSearch] else []) ++
             [Effect.spawnRefreshImports])
      | "watchlists" => (s', [.spawnLoadWatchlists true])
      | "kite" => (s', [.spawnRefreshKiteStatus false])
      | "users" => (s', [.spawnLoadUsers])
      | _ => (s', [])

/-- Query string built by executeSearch from the stored params: entries with
empty values are dropped, a truthy cursor is appended last. Percent encoding
is immaterial here and elided. -/
def buildQuery (params : List (String × String)) (cursor : Option String) : String :=
  let kept := params.filter (fun kv => !kv.2.isEmpty)
  let withCursor :=
    match cursor with
    | some c => if c.isEmpty then kept else kept ++ [("cursor", c)]
    | none => kept
  String.intercalate "&" (withCursor.map (fun kv => kv.1 ++ "=" ++ kv.2))

/-- Search endpoint URL for given stored params and cursor. -/
def searchUrl (params : List (String × String)) (cursor : Option String) : String :=
  "/v1/instruments?" ++ buildQuery params cursor

/-- Embedding of executeSearch (app.js lines 586-626): token gate, fetch with
the stored params plus the explicit cursor, then on success replace or append
the rows, store next_cursor, and set the load-more control disabled flag to
the negation of the stored cursor; on failure only report. -/
def executeSearch (s : AppState) (append : Bool) (cursor : Option String)
    (resp : ApiResult SearchPage) : AppState × List Effect :=
  if !strTruthy s.token then
    (s, [.status "search" requireTokenMessage "error"])
  else
    let url := searchUrl s.lastSearchParams cursor
    let pre := [Effect.status "search" (if append then "Loading more…" else "Searching…") "info",
                Effect.fetch url "GET"]
    match resp with
    | .ok page =>
      let rows := if append then s.resultsRows ++ page.items else page.items
      let s' := { s with resultsRows := rows
                         nextCursor := page.next_cursor
                         loadMoreDisabled := !strTruthy page.next_cursor }
      (s', pre ++
        [Effect.status "search"
          (if page.items.isEmpty then "No instruments found."
           else "Retrieved " ++ toString page.items.length ++ " instruments.")
          (if page.items.isEmpty then "info" else "success")])
    | .err msg =>
      (s, pre ++ [.consoleError msg, .status "search" msg "error"])

/-- Search form fields as extracted by the submit handler. -/
structure SearchFormData where
  q : String
  segment : String
  exchange : String
  type : String
  limit : String
  deriving DecidableEq, Repr

/-- Embedding of the search form submit handler (app.js lines 768-779): the
stored params are replaced wholesale from the form, then a fresh search runs
with no cursor. -/
def searchSubmit (s : AppState) (form : SearchFormData) (resp : ApiResult SearchPage) :
    AppState × List Effect :=
  executeSearch
    { s with lastSearchParams :=
        [("q", form.q.trim), ("segment", form.segment.trim), ("exchange", form.exchange.trim),
         ("type", form.type.trim), ("limit", form.limit)] }
    false none resp

/-- Embedding of the load-more click handler (app.js lines 781-784): a falsy
stored cursor makes the handler return at once; otherwise executeSearch runs
in append mode with the stored cursor. -/
def loadMoreClick (s : AppState) (resp : ApiResult SearchPage) : AppState × List Effect :=
  if !strTruthy s.nextCursor then
    (s, [])
  else
    executeSearch s true s.nextCursor resp

/-- Embedding of the clear-database click handler (app.js lines 786-811):
token gate with its own message, confirmation prompt, then the delete-all
request; only on success are the rows emptied, the cursor nulled and the
load-more control disabled. -/
def clearDbClick (s : AppState) (confirmed : Bool) (resp : ApiResult DeletePayload) :
    AppState × List Effect :=
  if !strTruthy s.token then
    (s, [.status "search" "Please login first." "error"])
  else if !confirmed then
    (s, [.confirmPrompt "This will delete all instruments. Continue?"])
  else
    let pre := [Effect.confirmPrompt "This will delete all instruments. Continue?",
                Effect.status "search" "Deleting instrument database…" "info",
                Effect.fetch "/v1/instruments" "DELETE"]
    match resp with
    | .ok payload =>
      ({ s with resultsRows := []
                nextCursor := none
                loadMoreDisabled := true },
       pre ++ [Effect.status "search"
                ("Deleted " ++ toString (payload.deleted.getD 0) ++ " instruments.") "success",
               Effect.spawnLoadDashboard false])
    | .err msg =>
      (s, pre ++ [.consoleError msg, .status "search" msg "error"])

/-- Embedding of loadWatchlists (app.js lines 508-533) composed with the
selection fallback inside renderWatchlistOptions (lines 284-314): on success
the collection is replaced; selection is kept only when preservation was
requested and the previous id is still a member, else it falls back to the
first element id or null; the option renderer repeats the first-element
fallback for a falsy selection; finally either a silent items fetch is
spawned for the selection or the items table and meta line are cleared. -/
def loadWatchlists (s : AppState) (preserveSelection : Bool)
    (resp : ApiResult (List Watchlist)) : AppState × List Effect :=
  if !strTruthy s.token then
    (s, [])
  else
    let pre := [Effect.fetch "/v1/watchlists" "GET"]
    match resp with
    | .err msg => (s, pre ++ [.consoleError msg, .status "watchlist" msg "error"])
    | .ok lists =>
      let kept := preserveSelection &&
        lists.any (fun w => some w.id == s.selectedWatchlistId)
      let sel₀ := if kept then s.selectedWatchlistId else lists.head?.map Watchlist.id
      let sel₁ := if !strTruthy sel₀ && !lists.isEmpty then lists.head?.map Watchlist.id else sel₀
      let s' := { s with watchlists := lists, selectedWatchlistId := sel₁ }
      if strTruthy sel₁ then
        (s', pre ++ [.spawnFetchWatchlistItems sel₁ true])
      else
        ({ s' with watchlistRows := [], watchlistMeta := "" }, pre)

/-- Embedding of the kite credential form submit handler (app.js lines
813-847): token gate, POST of the form payload, and on success a status
message, an awaited silent credential-status refresh and a spawned silent
dashboard reload; the handler itself never writes the credential state. -/
def kiteSaveSubmit (s : AppState) (form : KiteCredentialForm)
    (resp : ApiResult DetailPayload) : AppState × List Effect :=
  if !strTruthy s.token then
    (s, [.status "kite" requireTokenMessage "error"])
  else
    let pre := [Effect.status "kite" "Saving Kite credentials…" "info",
                Effect.fetch "/v1/admin/brokers/zerodha/token" "POST"]
    match resp with
    | .ok body =>
      (s, pre ++ [Effect.status "kite" (body.detail.getD "Kite credentials updated.") "success",
                  Effect.spawnRefreshKiteStatus false,
                  Effect.spawnLoadDashboard false])
    | .err msg =>
      (s, pre ++ [.consoleError msg, .status "kite" msg "error"])

/-- Embedding of the kite test button click handler (app.js lines 849-868):
token gate, POST to the test endpoint, and a status report in either case. -/
def kiteTestClick (s : AppState) (resp : ApiResult DetailPayload) : AppState × List Effect :=
  if !strTruthy s.token then
    (s, [.status "kite" requireTokenMessage "error"])
  else
    let pre := [Effect.status "kite" "Testing Kite connectivity…" "info",
                Effect.fetch "/v1/admin/brokers/zerodha/test" "POST"]
    match resp with
    | .ok body =>
      (s, pre ++ [Effect.status "kite" (body.detail.getD "Kite connectivity OK.") "success"])
    | .err msg =>
      (s, pre ++ [.consoleError msg, .status "kite" msg "error"])

/-- Embedding of the kite clear button click handler (app.js lines 870-896):
token gate, confirmation prompt, DELETE of the stored credential, and on
success a status message, an awaited silent refresh and a spawned silent
dashboard reload. -/
def kiteClearClick (s : AppState) (confirmed : Bool)
    (resp : ApiResult DetailPayload) : AppState × List Effect :=
  if !strTruthy s.token then
    (s, [.status "kite" requireTokenMessage "error"])
  else if !confirmed then
    (s, [.confirmPrompt "Clear stored Kite credentials?"])
  else
    let pre := [Effect.confirmPrompt "Clear stored Kite credentials?",
                Effect.status "kite" "Clearing Kite credentials…" "info",
                Effect.fetch "/v1/admin/brokers/zerodha/token" "DELETE"]
    match resp with
    | .ok body =>
      (s, pre ++ [Effect.status "kite" (body.detail.getD "Kite credentials cleared.") "success",
                  Effect.spawnRefreshKiteStatus false,
                  Effect.spawnLoadDashboard false])
    | .err msg =>
      (s, pre ++ [.consoleError msg, .status "kite" msg "error"])

/-- Embedding of handleAddToWatchlist (app.js lines 628-657): with a falsy
selection the handler reports the select-first error and stops before any
request; otherwise after the token gate it POSTs against the selected
watchlist and on success spawns a silent items refetch plus a silent
dashboard reload. -/
def handleAddToWatchlist (s : AppState) (instrumentId : String)
    (resp : ApiResult DetailPayload) : AppState × List Effect :=
  if !strTruthy s.selectedWatchlistId then
    (s, [.status "watchlist" "Select or create a watchlist first." "error"])
  else if !strTruthy s.token then
    (s, [.status "watchlist" requireTokenMessage "error"])
  else
    let url := "/v1/watchlists/" ++ s.selectedWatchlistId.getD "" ++ "/items"
    let pre := [Effect.status "watchlist" "Adding instrument…" "info",
                Effect.fetch url "POST"]
    match resp with
    | .ok _ =>
      (s, pre ++ [Effect.status "watchlist" "Instrument added to watchlist." "success",
                  Effect.spawnFetchWatchlistItems s.selectedWatchlistId true,
                  Effect.spawnLoadDashboard false])
    | .err msg =>
      (s, pre ++ [.consoleError msg, .status "watchlist" msg "error"])

/-- Embedding of handleRemoveWatchlistItem (app.js lines 659-685): with a
falsy selection the handler returns silently, reporting nothing and issuing
no request; otherwise after the token gate it DELETEs the item from the
selected watchlist and on success spawns a silent items refetch plus a
silent dashboard reload. -/
def handleRemoveWatchlistItem (s : AppState) (itemId : String)
    (resp : ApiResult DetailPayload) : AppState × List Effect :=
  if !strTruthy s.selectedWatchlistId then
    (s, [])
  else if !strTruthy s.token then
    (s, [.status "watchlist" requireTokenMessage "error"])
  else
    let url := "/v1/watchlists/" ++ s.selectedWatchlistId.getD "" ++ "/items/" ++ itemId
    let pre := [Effect.status "watchlist" "Removing instrument…" "info",
                Effect.fetch url "DELETE"]
    match resp with
    | .ok body =>
      (s, pre ++ [Effect.status "watchlist" (body.detail.getD "Instrument removed.") "success",
                  Effect.spawnFetchWatchlistItems s.selectedWatchlistId true,
                  Effect.spawnLoadDashboard false])
    | .err msg =>
      (s, pre ++ [.consoleError msg, .status "watchlist" msg "error"])

/-- Embedding of updateUserRoles (app.js lines 424-438): an empty role list
throws the select-at-least-one-role validation error before any request is
constructed; otherwise the token gate inside authenticatedFetch runs and the
full role set is PUT, the outcome following the response. -/
def updateUserRoles (token : Option String) (userId : String) (roles : List String)
    (resp : ApiResult DetailPayload) : ApiResult DetailPayload × List Effect :=
  if roles.isEmpty then
    (.err "Select at least one role.", [])
  else if !strTruthy token then
    (.err requireTokenMessage, [])
  else
    let url := "/v1/admin/users/" ++ userId ++ "/roles"
    match resp with
    | .ok body => (.ok body, [.fetch url "PUT"])
    | .err msg => (.err msg, [.fetch url "PUT"])

/-- Load-more control invariant maintained by the search handlers: the
control is disabled exactly when the stored cursor is not a usable
continuation (null or empty). -/
def loadMoreInvariant (s : AppState) : Prop :=
  s.loadMoreDisabled = !strTruthy s.nextCursor

instance (s : AppState) : Decidable (loadMoreInvariant s) := by
  unfold loadMoreInvariant
  infer_instance

/-- Normal form of the selection computed by a watchlist refresh that
received the collection successfully. -/
lemma loadWatchlists_selected (s : AppState) (preserve : Bool) (lists : List Watchlist)
    (hTok : strTruthy s.token = true) :
    (loadWatchlists s preserve (.ok lists)).1.selectedWatchlistId =
      (if strTruthy (if preserve = true ∧ (∃ x ∈ lists, some x.id = s.selectedWatchlistId)
                     then s.selectedWatchlistId
                     else Option.map Watchlist.id lists.head?) = false ∧ ¬lists = []
       then Option.map Watchlist.id lists.head?
       else if preserve = true ∧ (∃ x ∈ lists, some x.id = s.selectedWatchlistId)
            then s.selectedWatchlistId
            else Option.map Watchlist.id lists.head?) := by
  unfold loadWatchlists
  simp [hTok, apply_ite Prod.fst, apply_ite AppState.selectedWatchlistId]

/-- Concrete instrument row used by scenario instantiations. -/
def sampleInstrument (n : String) : Instrument :=
  { id := n
    instrument_token := n
    tradingsymbol := "SYM" ++ n
    name := none
    exchange := "NSE"
    segment := "EQ"
    instrument_type := "EQ"
    lot_size := "1"
    tick_size := "0.05"
    last_price := none }

/-- A non-null head projection of the collection names a member id. -/
lemma head_id_is_member (lists : List Watchlist) (i : String)
    (h : Option.map Watchlist.id lists.head? = some i) :
    ∃ x ∈ lists, x.id = i := by
  cases lists with
  | nil => simp at h
  | cons w ws =>
    simp only [List.head?_cons, Option.map_some'] at h
    exact ⟨w, List.mem_cons_self w ws, by injection h⟩

end AdminConsole

namespace AdminConsole

/-- Claim C1 counterexample: on a fact that is not configured, the code
returns the string with the word Kite in it, not the fixed string
claimed by the specification. -/
theorem C1_counterexample :
    describeKiteStatus (fun s => s)
        (some { configured := false, api_key_last4 := none,
                access_token_last4 := none, valid_till := none })
      ≠ "No credentials stored." := by
  decide

/-- Claim C1 (amended): the description function agrees everywhere with the
spec-side composition rule whose not-configured string is
No Kite credentials stored., and on the concrete configured fact with only
the masked key suffix abcd it returns the composed active string. -/
theorem C1_description_rule (fmtDate : String → String) (fact : Option KiteStatusPayload) :
    describeKiteStatus fmtDate fact = specKiteDescription fmtDate fact ∧
    describeKiteStatus fmtDate
        (some { configured := true, api_key_last4 := some "abcd",
                access_token_last4 := none, valid_till := none })
      = "Kite credentials active · API key •••abcd" := by
  constructor
  · match fact with
    | none => rfl
    | some p =>
      simp only [describeKiteStatus, specKiteDescription, strTruthy]
      cases hc : p.configured with
      | false => simp
      | true =>
        simp only [Bool.not_true, if_false, if_true]
        cases hk : p.api_key_last4 with
        | none =>
          cases ht : p.access_token_last4 with
          | none =>
            cases hv : p.valid_till with
            | none => simp
            | some v => by_cases hve : v.isEmpty <;> simp [hve]
          | some t =>
            by_cases hte : t.isEmpty <;>
              cases hv : p.valid_till with
              | none => simp [hte]
              | some v => by_cases hve : v.isEmpty <;> simp [hte, hve]
        | some k =>
          by_cases hke : k.isEmpty <;>
            cases ht : p.access_token_last4 with
            | none =>
              cases hv : p.valid_till with
              | none => simp [hke]
              | some v => by_cases hve : v.isEmpty <;> simp [hke, hve]
            | some t =>
              by_cases hte : t.isEmpty <;>
                cases hv : p.valid_till with
                | none => simp [hke, hte]
                | some v => by_cases hve : v.isEmpty <;> simp [hke, hte, hve]
  · rfl

/-- Claim C5: a panel activation performed while the session holds no token
emits no effect at all (no network call, no data load) and changes only the
active-panel visual selection, so the panel keeps its static login
placeholder markup. -/
theorem C5_unauthenticated_activation (s : AppState) (panelId : String)
    (h : strTruthy s.token = false) :
    (setActivePanel s panelId).2 = [] ∧
    (setActivePanel s panelId).1 =
      (if panelId.isEmpty then s else { s with activePanel := panelId }) := by
  unfold setActivePanel
  by_cases hp : panelId.isEmpty <;> simp [hp, h]

/-- Witness for claim C5 at the initial state and the users panel. -/
theorem C5_witness :
    strTruthy initState.token = false ∧
    (setActivePanel initState "users").2 = [] ∧
    (setActivePanel initState "users").1 =
      (if ("users" : String).isEmpty then initState
       else { initState with activePanel := "users" }) :=
  ⟨by decide, C5_unauthenticated_activation initState "users" (by decide)⟩

/-- Claim C7: with a confirmed delete-all request, a failed response leaves
the whole state unchanged, while a successful response empties the rows,
nulls the cursor and disables the load-more control. -/
theorem C7_clearAll_atomic (s : AppState) (msg : String) (payload : DeletePayload)
    (hTok : strTruthy s.token = true) :
    (clearDbClick s true (.err msg)).1 = s ∧
    (clearDbClick s true (.ok payload)).1.resultsRows = [] ∧
    (clearDbClick s true (.ok payload)).1.nextCursor = none ∧
    (clearDbClick s true (.ok payload)).1.loadMoreDisabled = true := by
  unfold clearDbClick
  simp [hTok]

/-- Witness for claim C7 at a concrete logged-in state. -/
theorem C7_witness :
    strTruthy (AppState.token { initState with token := some "tok" }) = true ∧
    ((clearDbClick { initState with token := some "tok" } true (.err "boom")).1 =
        { initState with token := some "tok" } ∧
      (clearDbClick { initState with token := some "tok" } true
          (.ok { deleted := some 3 })).1.resultsRows = [] ∧
      (clearDbClick { initState with token := some "tok" } true
          (.ok { deleted := some 3 })).1.nextCursor = none ∧
      (clearDbClick { initState with token := some "tok" } true
          (.ok { deleted := some 3 })).1.loadMoreDisabled = true) :=
  ⟨by decide, C7_clearAll_atomic { initState with token := some "tok" } "boom"
      { deleted := some 3 } (by decide)⟩

/-- Claim C8: a load-more click made while the stored cursor is null returns
immediately, emitting no effect and leaving the state unchanged. -/
theorem C8_loadMore_noop (s : AppState) (resp : ApiResult SearchPage)
    (h : s.nextCursor = none) :
    loadMoreClick s resp = (s, []) := by
  unfold loadMoreClick
  simp [h, strTruthy]

/-- Witness for claim C8 at the initial state. -/
theorem C8_witness :
    initState.nextCursor = none ∧
    loadMoreClick initState (.ok { items := [], next_cursor := none, total := none }) =
      (initState, []) :=
  ⟨by decide, C8_loadMore_noop initState (.ok { items := [], next_cursor := none, total := none })
      (by decide)⟩

/-- Claim C9: updating user roles with an empty role list fails with the
client-side validation message and emits no effect, in particular no network
request, before any request is constructed. -/
theorem C9_saveRoles_empty (token : Option String) (userId : String)
    (roles : List String) (resp : ApiResult DetailPayload) (h : roles = []) :
    updateUserRoles token userId roles resp =
      (.err "Select at least one role.", []) := by
  subst h
  rfl

/-- Witness for claim C9 at a concrete user id and logged-in token. -/
theorem C9_witness :
    ([] : List String) = [] ∧
    updateUserRoles (some "tok") "user-1" [] (.ok { detail := none }) =
      (.err "Select at least one role.", []) :=
  ⟨rfl, C9_saveRoles_empty (some "tok") "user-1" [] (.ok { detail := none }) rfl⟩

/-- Claim C3: after a successful preservation-requesting refresh of the
watchlist collection, a non-null selection always references a member of the
fetched collection, and when the previously selected id is absent from the
fetched collection the selection becomes the first element id, or null for
an empty collection — a dangling id is never retained. -/
theorem C3_selection_reconciliation (s : AppState) (preserve : Bool) (lists : List Watchlist)
    (hTok : strTruthy s.token = true) :
    (∀ i, (loadWatchlists s preserve (.ok lists)).1.selectedWatchlistId = some i →
      ∃ x ∈ lists, x.id = i) ∧
    (∀ j, s.selectedWatchlistId = some j →
      (¬ ∃ x ∈ lists, x.id = j) →
      (loadWatchlists s preserve (.ok lists)).1.selectedWatchlistId =
        Option.map Watchlist.id lists.head?) := by
  constructor
  · intro i hi
    rw [loadWatchlists_selected s preserve lists hTok] at hi
    by_cases hc : (strTruthy (if preserve = true ∧ (∃ x ∈ lists, some x.id = s.selectedWatchlistId)
                     then s.selectedWatchlistId
                     else Option.map Watchlist.id lists.head?) = false ∧ ¬lists = [])
    · rw [if_pos hc] at hi
      exact head_id_is_member lists i hi
    · rw [if_neg hc] at hi
      by_cases hmem : preserve = true ∧ ∃ x ∈ lists, some x.id = s.selectedWatchlistId
      · rw [if_pos hmem] at hi
        obtain ⟨-, x, hx, hxid⟩ := hmem
        rw [hi] at hxid
        exact ⟨x, hx, by injection hxid⟩
      · rw [if_neg hmem] at hi
        exact head_id_is_member lists i hi
  · intro j hj hany
    rw [loadWatchlists_selected s preserve lists hTok]
    have hmem : ¬ (preserve = true ∧ ∃ x ∈ lists, some x.id = s.selectedWatchlistId) := by
      rintro ⟨-, x, hx, hxid⟩
      rw [hj] at hxid
      exact hany ⟨x, hx, by injection hxid⟩
    simp only [if_neg hmem]
    exact ite_self _

/-- Witness for claim C3: the previously selected id x1 is absent from the
refreshed two-element collection, so the selection falls back to the first
fetched id, which is a member. -/
theorem C3_witness :
    strTruthy (AppState.token
      { initState with token := some "tok", selectedWatchlistId := some "x1" }) = true ∧
    (some "x1" = some "x1") ∧
    AppState.selectedWatchlistId
      (loadWatchlists { initState with token := some "tok", selectedWatchlistId := some "x1" }
        true (.ok [{ id := "w1", name := "Tech" }, { id := "w2", name := "Energy" }])).1 =
      Option.map Watchlist.id
        ([{ id := "w1", name := "Tech" }, { id := "w2", name := "Energy" }] : List Watchlist).head? :=
  ⟨by decide, rfl,
    (C3_selection_reconciliation
        { initState with token := some "tok", selectedWatchlistId := some "x1" }
        true [{ id := "w1", name := "Tech" }, { id := "w2", name := "Energy" }]
        (by decide)).2 "x1" rfl (by decide)⟩

/-- Claim C4: a fresh search followed by two load-more calls, over three
server pages chained by truthy continuation cursors, leaves the row sequence
equal to the three item lists concatenated in server order, and each
load-more call re-issues the stored params together with the stored cursor. -/
theorem C4_pagination_concat (s : AppState) (form : SearchFormData)
    (p1 p2 p3 : SearchPage) (c1 c2 : String)
    (hTok : strTruthy s.token = true)
    (h1 : p1.next_cursor = some c1) (h1e : c1.isEmpty = false)
    (h2 : p2.next_cursor = some c2) (h2e : c2.isEmpty = false) :
    AppState.resultsRows
        (loadMoreClick (loadMoreClick (searchSubmit s form (.ok p1)).1 (.ok p2)).1 (.ok p3)).1
      = p1.items ++ p2.items ++ p3.items ∧
    Effect.fetch (searchUrl (AppState.lastSearchParams (searchSubmit s form (.ok p1)).1) (some c1))
        "GET" ∈ (loadMoreClick (searchSubmit s form (.ok p1)).1 (.ok p2)).2 ∧
    Effect.fetch (searchUrl (AppState.lastSearchParams (searchSubmit s form (.ok p1)).1) (some c2))
        "GET"
      ∈ (loadMoreClick (loadMoreClick (searchSubmit s form (.ok p1)).1 (.ok p2)).1 (.ok p3)).2 := by
  unfold loadMoreClick searchSubmit executeSearch
  simp [hTok, h1, h1e, h2, h2e, List.append_assoc]

/-- Witness for claim C4 at a concrete logged-in state, query and three
concrete one-item pages chained by the cursors cur1 and cur2. -/
theorem C4_witness :
    strTruthy (AppState.token { initState with token := some "tok" }) = true ∧
    SearchPage.next_cursor
        { items := [sampleInstrument "1"], next_cursor := some "cur1", total := none } =
      some "cur1" ∧
    AppState.resultsRows
        (loadMoreClick
          (loadMoreClick
            (searchSubmit { initState with token := some "tok" }
              { q := "NIFTY", segment := "", exchange := "", type := "", limit := "20" }
              (.ok { items := [sampleInstrument "1"], next_cursor := some "cur1", total := none })).1
            (.ok { items := [sampleInstrument "2"], next_cursor := some "cur2", total := none })).1
          (.ok { items := [sampleInstrument "3"], next_cursor := none, total := none })).1
      = [sampleInstrument "1"] ++ [sampleInstrument "2"] ++ [sampleInstrument "3"] :=
  ⟨by decide, rfl,
    (C4_pagination_concat { initState with token := some "tok" }
      { q := "NIFTY", segment := "", exchange := "", type := "", limit := "20" }
      { items := [sampleInstrument "1"], next_cursor := some "cur1", total := none }
      { items := [sampleInstrument "2"], next_cursor := some "cur2", total := none }
      { items := [sampleInstrument "3"], next_cursor := none, total := none }
      "cur1" "cur2" (by decide) rfl (by decide) rfl (by decide)).1⟩

/-- Claim C10 counterexample: a completed search whose response carries the
empty string as next_cursor stores that non-null cursor yet leaves the
load-more control disabled, so the control is not enabled exactly when the
stored cursor is non-null. -/
theorem C10_counterexample :
    AppState.nextCursor (searchSubmit { initState with token := some "tok" }
        { q := "NIFTY", segment := "", exchange := "", type := "", limit := "20" }
        (.ok { items := [], next_cursor := some "", total := none })).1 = some "" ∧
    AppState.loadMoreDisabled (searchSubmit { initState with token := some "tok" }
        { q := "NIFTY", segment := "", exchange := "", type := "", limit := "20" }
        (.ok { items := [], next_cursor := some "", total := none })).1 = true := by
  constructor <;> rfl

/-- Claim C10 (amended): every completed search, load-more and clear-all
preserves the invariant that the load-more control is disabled exactly when
the stored cursor is not a usable continuation (null or empty); a load-more
click with an unusable cursor emits nothing; and an applied search response
stores next_cursor and sets the control to its negation. -/
theorem C10_loadmore_invariant (s : AppState) (form : SearchFormData) (page : SearchPage)
    (resp : ApiResult SearchPage) (confirmed : Bool) (respD : ApiResult DeletePayload)
    (h : loadMoreInvariant s) :
    loadMoreInvariant (searchSubmit s form resp).1 ∧
    loadMoreInvariant (loadMoreClick s resp).1 ∧
    loadMoreInvariant (clearDbClick s confirmed respD).1 ∧
    (strTruthy s.nextCursor = false → (loadMoreClick s resp).2 = []) ∧
    (strTruthy s.token = true →
      (searchSubmit s form (.ok page)).1.nextCursor = page.next_cursor ∧
      (searchSubmit s form (.ok page)).1.loadMoreDisabled = !strTruthy page.next_cursor) := by
  unfold loadMoreInvariant at h ⊢
  unfold searchSubmit loadMoreClick clearDbClick executeSearch
  cases resp <;> cases respD <;> cases confirmed <;>
    cases htk : strTruthy s.token <;> cases hcur : strTruthy s.nextCursor <;>
      simp [htk, hcur, h]

/-- Witness for claim C10 at the initial state, which satisfies the
invariant, with a concrete query and page. -/
theorem C10_witness :
    loadMoreInvariant initState ∧
    loadMoreInvariant (searchSubmit initState
      { q := "NIFTY", segment := "", exchange := "", type := "", limit := "20" }
      (.ok { items := [], next_cursor := some "c", total := none })).1 :=
  ⟨by decide,
    (C10_loadmore_invariant initState
      { q := "NIFTY", segment := "", exchange := "", type := "", limit := "20" }
      { items := [], next_cursor := some "c", total := none }
      (.ok { items := [], next_cursor := some "c", total := none })
      false (.ok { deleted := none }) (by decide)).1⟩

/-- Claim C2 counterexample: the credential test handler, run logged in with
a successful response, never emits the silent credential-status refresh nor
the dashboard summary refresh that the claim says every one of save, test
and clear triggers. -/
theorem C2_counterexample :
    Effect.spawnRefreshKiteStatus false ∉
      (kiteTestClick { initState with token := some "tok" } (.ok { detail := none })).2 ∧
    Effect.spawnLoadDashboard false ∉
      (kiteTestClick { initState with token := some "tok" } (.ok { detail := none })).2 := by
  decide

/-- Claim C2 (amended): save and clear, when their network action succeeds,
leave the credential state untouched and trigger the silent status refresh
followed by the dashboard refresh; when their network action fails, neither
operation triggers either refresh; the test handler performs only its
network action and report, never a refresh; no handler derives the new
credential state locally. -/
theorem C2_credential_ops (s : AppState) (form : KiteCredentialForm)
    (body : DetailPayload) (msg : String) (resp : ApiResult DetailPayload)
    (confirmed : Bool) (hTok : strTruthy s.token = true) :
    ((kiteSaveSubmit s form (.ok body)).1 = s ∧
      Effect.fetch "/v1/admin/brokers/zerodha/token" "POST" ∈ (kiteSaveSubmit s form (.ok body)).2 ∧
      Effect.spawnRefreshKiteStatus false ∈ (kiteSaveSubmit s form (.ok body)).2 ∧
      Effect.spawnLoadDashboard false ∈ (kiteSaveSubmit s form (.ok body)).2) ∧
    ((kiteClearClick s true (.ok body)).1 = s ∧
      Effect.fetch "/v1/admin/brokers/zerodha/token" "DELETE" ∈ (kiteClearClick s true (.ok body)).2 ∧
      Effect.spawnRefreshKiteStatus false ∈ (kiteClearClick s true (.ok body)).2 ∧
      Effect.spawnLoadDashboard false ∈ (kiteClearClick s true (.ok body)).2) ∧
    Effect.spawnRefreshKiteStatus false ∉ (kiteSaveSubmit s form (.err msg)).2 ∧
    Effect.spawnLoadDashboard false ∉ (kiteSaveSubmit s form (.err msg)).2 ∧
    Effect.spawnRefreshKiteStatus false ∉ (kiteClearClick s confirmed (.err msg)).2 ∧
    Effect.spawnLoadDashboard false ∉ (kiteClearClick s confirmed (.err msg)).2 ∧
    Effect.spawnRefreshKiteStatus false ∉ (kiteTestClick s resp).2 ∧
    Effect.spawnLoadDashboard false ∉ (kiteTestClick s resp).2 ∧
    (kiteTestClick s resp).1 = s ∧
    (kiteSaveSubmit s form resp).1 = s ∧
    (kiteClearClick s confirmed resp).1 = s := by
  unfold kiteSaveSubmit kiteClearClick kiteTestClick
  cases resp <;> cases confirmed <;> simp [hTok]

/-- Witness for claim C2 at a concrete logged-in state and responses. -/
theorem C2_witness :
    strTruthy (AppState.token { initState with token := some "tok" }) = true ∧
    Effect.spawnRefreshKiteStatus false ∈
      (kiteSaveSubmit { initState with token := some "tok" }
        { api_key := "k", access_token := "a", valid_till := none }
        (.ok { detail := none })).2 :=
  ⟨by decide,
    (C2_credential_ops { initState with token := some "tok" }
      { api_key := "k", access_token := "a", valid_till := none }
      { detail := none } "boom" (.ok { detail := none }) true (by decide)).1.2.2.1⟩

/-- Claim C6 counterexample: removing a watchlist item while no watchlist is
selected produces the unchanged state and an empty trace: no network request,
but also no failure condition of any kind is raised. -/
theorem C6_counterexample :
    handleRemoveWatchlistItem { initState with token := some "tok" } "7"
        (.ok { detail := none }) =
      ({ initState with token := some "tok" }, []) := by
  decide

/-- Claim C6 (amended): with a null selection, adding reports the
select-a-watchlist-first error without any request while removing silently
no-ops without any request; with a non-null, non-empty selection and a token
held, both operations issue their request against the selected watchlist. -/
theorem C6_selection_required (s : AppState) (instrumentId itemId : String)
    (resp : ApiResult DetailPayload) :
    (s.selectedWatchlistId = none →
      handleAddToWatchlist s instrumentId resp =
        (s, [.status "watchlist" "Select or create a watchlist first." "error"]) ∧
      handleRemoveWatchlistItem s itemId resp = (s, [])) ∧
    (∀ wid, s.selectedWatchlistId = some wid → wid.isEmpty = false →
      strTruthy s.token = true →
      Effect.fetch ("/v1/watchlists/" ++ wid ++ "/items") "POST"
          ∈ (handleAddToWatchlist s instrumentId resp).2 ∧
      Effect.fetch ("/v1/watchlists/" ++ wid ++ "/items/" ++ itemId) "DELETE"
          ∈ (handleRemoveWatchlistItem s itemId resp).2) := by
  constructor
  · intro hsel
    unfold handleAddToWatchlist handleRemoveWatchlistItem
    simp [hsel, strTruthy]
  · intro wid hsel hwid hTok
    unfold handleAddToWatchlist handleRemoveWatchlistItem
    cases resp <;> simp [hsel, hwid, hTok]

/-- Witness for claim C6, instantiating the null-selection case at the
initial state and the selected case at a concrete watchlist. -/
theorem C6_witness :
    handleAddToWatchlist initState "42" (.ok { detail := none }) =
      (initState, [.status "watchlist" "Select or create a watchlist first." "error"]) ∧
    Effect.fetch "/v1/watchlists/w1/items" "POST"
        ∈ (handleAddToWatchlist
            { initState with token := some "tok", selectedWatchlistId := some "w1" } "42"
            (.ok { detail := none })).2 :=
  ⟨((C6_selection_required initState "42" "7" (.ok { detail := none })).1 rfl).1,
    ((C6_selection_required
        { initState with token := some "tok", selectedWatchlistId := some "w1" } "42" "7"
        (.ok { detail := none })).2 "w1" rfl (by decide) (by decide)).1⟩

end AdminConsole
